import Mathlib

/-!
Shallow embedding of the `csscolor` library (src/index.js and
src/ColorAlpha.class.js). JavaScript numbers are modelled as rationals;
a JavaScript value that is `NaN`/`undefined`/non-finite at a point where the
code compares it with `===` or branches on it is modelled with `Option`,
and a thrown `TypeError` is modelled as `none` in an `Option Color` result.
-/

namespace CssColor

/-- Truncation toward zero, as used by the JavaScript `%` operator. -/
def qtrunc (q : ℚ) : ℤ :=
  if 0 ≤ q then ⌊q⌋ else ⌈q⌉

/-- JavaScript remainder `a % b`: truncated division, result keeps the sign of
the dividend `a` (it is NOT a nonnegative mathematical `mod`). -/
def jsRem (a b : ℚ) : ℚ :=
  a - b * (qtrunc (a / b) : ℤ)

/-- JavaScript `Math.round`: round half toward positive infinity. -/
def jround (q : ℚ) : ℤ :=
  ⌊q + 1/2⌋

/-- The stored state of a `Color` object: the three fields `_RED`, `_GREEN`,
`_BLUE` set by the constructor (src/index.js:17-21). All six HSV/HSL fields
are computed from these at construction; we model them as functions of this
state, which is equivalent because the object is immutable. -/
structure Color where
  red : ℚ
  green : ℚ
  blue : ℚ
  deriving DecidableEq, Repr

/-- The `Color` constructor with three number arguments (src/index.js:17-21):
`self._RED = red || 0`, `self._GREEN = grn || self._RED`,
`self._BLUE = blu || self._RED`. JavaScript `||` substitutes the fallback
whenever the left operand is falsy, i.e. when it equals `0` (a missing or
`NaN` argument is also falsy and behaves like `0` here). -/
def mkColor (red grn blu : ℚ) : Color :=
  let R : ℚ := if red = 0 then 0 else red
  let G : ℚ := if grn = 0 then R else grn
  let B : ℚ := if blu = 0 then R else blu
  ⟨R, G, B⟩

/-- Field `_max` (src/index.js:23): `Math.max(_RED, _GREEN, _BLUE) / 255`. -/
def cmax (c : Color) : ℚ :=
  max c.red (max c.green c.blue) / 255

/-- Field `_min` (src/index.js:24): `Math.min(_RED, _GREEN, _BLUE) / 255`. -/
def cmin (c : Color) : ℚ :=
  min c.red (min c.green c.blue) / 255

/-- Field `_chroma` (src/index.js:25): `_max - _min`. -/
def chroma (c : Color) : ℚ :=
  cmax c - cmin c

/-- Field `_HSV_HUE` (src/index.js:36-50). `$rgb.indexOf(_max)` picks the first
normalized channel equal to the maximum (priority red, green, blue), selecting
one of the three branch functions. The red branch uses the JavaScript `%`
operator, whose result keeps the sign of `(g-b)/chroma`. -/
def hsvHue (c : Color) : ℚ :=
  if chroma c = 0 then 0
  else
    let r := c.red / 255
    let g := c.green / 255
    let b := c.blue / 255
    if r = cmax c then jsRem ((g - b) / chroma c) 6 * 60
    else if g = cmax c then ((b - r) / chroma c + 2) * 60
    else ((r - g) / chroma c + 4) * 60

/-- Field `_HSV_VAL` (src/index.js:60-62): `_max`. -/
def hsvVal (c : Color) : ℚ :=
  cmax c

/-- Field `_HSV_SAT` (src/index.js:70-72): the bare division `_chroma / _HSV_VAL`
with no guard. When `_HSV_VAL = 0` the JavaScript result is non-finite
(`0/0 = NaN`), modelled as `none`; it then compares unequal to `0`. -/
def hsvSat (c : Color) : Option ℚ :=
  if hsvVal c = 0 then none else some (chroma c / hsvVal c)

/-- Field `_HSL_HUE` (src/index.js:79-81): identical to `_HSV_HUE`. -/
def hslHue (c : Color) : ℚ :=
  hsvHue c

/-- Field `_HSL_LUM` (src/index.js:89-91): `0.5 * (_max + _min)`. -/
def hslLum (c : Color) : ℚ :=
  (1/2) * (cmax c + cmin c)

/-- Field `_HSL_SAT` (src/index.js:112-115): `0` when `_chroma = 0`, otherwise
`_chroma / (lum <= 0.5 ? 2 lum : 2 - 2 lum)`. -/
def hslSat (c : Color) : ℚ :=
  if chroma c = 0 then 0
  else chroma c / (if hslLum c ≤ 1/2 then 2 * hslLum c else 2 - 2 * hslLum c)

/-- Method `isGrayscale` (src/index.js:345-347): `this.hsvSat() === 0`. A `NaN`
saturation (modelled `none`) is not `=== 0`. -/
def isGrayscale (c : Color) : Bool :=
  decide (hsvSat c = some 0)

/-- Method `complement` (src/index.js:192-194):
`new Color(255 - red, 255 - grn, 255 - blu)`. -/
def complement (c : Color) : Color :=
  mkColor (255 - c.red) (255 - c.green) (255 - c.blue)

/-- The six-way sextant selection shared by `fromHSV` and `fromHSL`
(src/index.js:442-447 and 468-473). `none` models the fall-through case where
no condition holds, the local `rgb` is left `undefined`, and the following
`rgb.map` call throws a `TypeError`. -/
def sextant (hue cc x : ℚ) : Option (ℚ × ℚ × ℚ) :=
  if 0 ≤ hue ∧ hue < 60 then some (cc, x, 0)
  else if 60 ≤ hue ∧ hue < 120 then some (x, cc, 0)
  else if 120 ≤ hue ∧ hue < 180 then some (0, cc, x)
  else if 180 ≤ hue ∧ hue < 240 then some (0, x, cc)
  else if 240 ≤ hue ∧ hue < 300 then some (x, 0, cc)
  else if 300 ≤ hue ∧ hue < 360 then some (cc, 0, x)
  else none

/-- Factory `Color.fromHSV` (src/index.js:437-454): `c = sat*val`,
`x = c * (1 - |hue/60 % 2 - 1|)`, `m = val - c`, sextant selection, then each
component is `Math.round((el + m) * 255)` and the triple is passed to the
`Color` constructor. `none` models the thrown `TypeError` when the hue lies
in no sextant. -/
def fromHSV (hue sat val : ℚ) : Option Color :=
  let c := sat * val
  let x := c * (1 - |jsRem (hue / 60) 2 - 1|)
  let m := val - c
  (sextant hue c x).map fun t =>
    mkColor ((jround ((t.1 + m) * 255) : ℤ) : ℚ)
            ((jround ((t.2.1 + m) * 255) : ℤ) : ℚ)
            ((jround ((t.2.2 + m) * 255) : ℤ) : ℚ)

/-- Factory `Color.fromHSL` (src/index.js:463-480): as `fromHSV` but with
`c = sat * (1 - |2 lum - 1|)` and `m = lum - c/2`. -/
def fromHSL (hue sat lum : ℚ) : Option Color :=
  let c := sat * (1 - |2 * lum - 1|)
  let x := c * (1 - |jsRem (hue / 60) 2 - 1|)
  let m := lum - c / 2
  (sextant hue c x).map fun t =>
    mkColor ((jround ((t.1 + m) * 255) : ℤ) : ℚ)
            ((jround ((t.2.1 + m) * 255) : ℤ) : ℚ)
            ((jround ((t.2.2 + m) * 255) : ℤ) : ℚ)

/-- Case split of `rotate` on its saturation argument. When `this.hsvSat()`
is `NaN` (the `none` branch, which happens exactly when `_HSV_VAL = 0`):
inside `fromHSV` the products `c`, `x`, `m` are all `NaN`, every rounded
component is `NaN`, and the constructor treats `NaN` as falsy, so a matching
sextant yields black; a hue matching no sextant still throws. -/
def rotateAux (newhue : ℚ) (sat : Option ℚ) (val : ℚ) : Option Color :=
  match sat with
  | some s => fromHSV newhue s val
  | none => (sextant newhue 0 0).map fun _ => mkColor 0 0 0

/-- Method `rotate` (src/index.js:201-204): `newhue = (hsvHue + a) % 360`
(JavaScript `%`, so `newhue` can be negative), then
`Color.fromHSV(newhue, this.hsvSat(), this.hsvVal())`. -/
def rotate (c : Color) (a : ℚ) : Option Color :=
  rotateAux (jsRem (hsvHue c + a) 360) (hsvSat c) (hsvVal c)

/-- Method `invert` (src/index.js:211-213): `this.rotate(180)`. -/
def invert (c : Color) : Option Color :=
  rotate c 180

/-- Method `mix` (src/index.js:287-296). The weight coercion
`if (w !== 0) w = +w || 0.5` leaves a nonzero number unchanged (for a number
argument, `+w` is falsy only when it equals `0`). Each channel is
`Math.round(this * (1-w) + other * w)` and the triple goes through the
`Color` constructor. -/
def mix (c other : Color) (w : ℚ) : Color :=
  let w1 := if w ≠ 0 then (if w = 0 then (1:ℚ)/2 else w) else w
  mkColor ((jround (c.red * (1 - w1) + other.red * w1) : ℤ) : ℚ)
          ((jround (c.green * (1 - w1) + other.green * w1) : ℤ) : ℚ)
          ((jround (c.blue * (1 - w1) + other.blue * w1) : ℤ) : ℚ)

/-- The character list of the string literal `'0123456789abcdef'` used by
`toDec` inside `Color.fromHex` (src/index.js:407-415). -/
def hexDigitChars : List Char :=
  "0123456789abcdef".toList

/-- Helper `toDec` (src/index.js:407-415): a loop over `i = 0..15` that overwrites
`tens` with `i*16` whenever `'0123456789abcdef'.charAt(i)` equals
`x.slice(0,1)`, and `ones` with `i` whenever it equals `x.slice(1,2)`; both
start at `0`, so a character matching no lowercase hex digit (or an empty
slice) contributes `0`. Strings are modelled as character lists;
`charAt(i)` is `(hexDigitChars.drop i).take 1` and `slice(j, j+1)` is
`(x.drop j).take 1`. -/
def toDec (x : List Char) : ℕ :=
  let tens := (List.range 16).foldl
    (fun acc i => if (hexDigitChars.drop i).take 1 = x.take 1 then i * 16 else acc) 0
  let ones := (List.range 16).foldl
    (fun acc i => if (hexDigitChars.drop i).take 1 = (x.drop 1).take 1 then i else acc) 0
  tens + ones

/-- Factory `Color.fromHex` (src/index.js:398-417): slices `[1,3)`, `[3,5)`, `[5,7)`
of the input, converts each with `toDec`, and passes the results to the
`Color` constructor. -/
def fromHex (hex_string : String) : Color :=
  let s := hex_string.toList
  mkColor ((toDec ((s.drop 1).take 2) : ℕ) : ℚ)
          ((toDec ((s.drop 3).take 2) : ℕ) : ℚ)
          ((toDec ((s.drop 5).take 2) : ℕ) : ℚ)

/-- JavaScript unary `+` applied to one comma-separated field of an
`rgb(...)` string, modelled for the grammar the spec gives those fields
(an integer with optional surrounding whitespace): the empty string coerces
to `0`, a digit string to its value, anything else to `NaN` (`none`). -/
def jsPlus (s : String) : Option ℚ :=
  let t := s.trim
  if t = "" then some 0
  else if t.toList.all Char.isDigit then
    some ((t.toList.foldl (fun n ch => 10 * n + (ch.toNat - 48)) 0 : ℕ) : ℚ)
  else none

/-- Factory `Color.fromRGB` (src/index.js:386-389): `slice(4,-1)`, split on `','`,
coerce each part with unary `+`, pass to the constructor. A missing part is
`undefined` and coerces to `NaN`; `NaN` and `0` behave identically in the
constructor's `||` chain, so `none` is replaced by `0` here. -/
def fromRGB (rgb_string : String) : Color :=
  let splitted := ((rgb_string.drop 4).dropRight 1).splitOn ","
  mkColor ((jsPlus (splitted.getD 0 "")).getD 0)
          ((jsPlus (splitted.getD 1 "")).getD 0)
          ((jsPlus (splitted.getD 2 "")).getD 0)

/-- The runtime type of the argument inspected by `Color.typeCheck`. -/
inductive JSArg where
  | color (c : Color)
  | str (s : String)
  | num (q : ℚ)
  | other

/-- Factory `Color.typeCheck` (src/index.js:487-501). `none` models a thrown
`TypeError`. A string beginning `"hsv("` or `"hsl("` is passed WHOLE to
`Color.fromHSV` / `Color.fromHSL` as the `hue` argument (with `sat` and
`val` missing, hence `undefined`): the string coerces to `NaN` in every
sextant comparison, no branch assigns `rgb`, and `rgb.map` throws — so those
two branches always throw. -/
def typeCheck : JSArg → Option Color
  | .color c => some c
  | .str s =>
    if s.take 1 = "#" then some (fromHex s)
    else if s.take 4 = "rgb(" then some (fromRGB s)
    else if s.take 4 = "hsv(" then none
    else if s.take 4 = "hsl(" then none
    else some (mkColor 0 0 0)
  | .num q =>
    let graytone := min (max 0 q) 255
    some (mkColor graytone graytone graytone)
  | .other => some (mkColor 0 0 0)

/-- The stored state of a `ColorAlpha` object (src/ColorAlpha.class.js:19-21):
the constructor body is only `super(red, green, blue)` — no alpha field is
ever created. `Modelled from the spec:` the parent class `Color.class.js` is
not under src/; per spec §4.1 its three-argument constructor stores the three
components. -/
structure ColorAlpha where
  red : ℚ
  green : ℚ
  blue : ℚ
  deriving DecidableEq, Repr

/-- The `ColorAlpha` constructor (src/ColorAlpha.class.js:19-21). The `alpha`
parameter (`none` when the caller's expression is `NaN`; the declared default
`1` replaces a missing argument) is accepted but never stored: the body is
just `super(red, green, blue)`. -/
def mkColorAlpha (red green blue : ℚ) (alpha : Option ℚ) : ColorAlpha :=
  ⟨red, green, blue⟩

/-- The property access `this.alpha` used by `negative()`
(src/ColorAlpha.class.js:38): neither the `ColorAlpha` constructor nor any
accessor ever defines an `alpha` property, so the access yields `undefined`
(modelled `none`). -/
def ColorAlpha.alphaProp (c : ColorAlpha) : Option ℚ :=
  none

/-- Method `negative()` (src/ColorAlpha.class.js:37-39):
`new ColorAlpha(...this.rgb, 1 - this.alpha)`. `1 - undefined` is `NaN`
(`Option.map` over `none`), and the constructor discards the alpha argument
regardless. `Modelled from the spec:` the inherited `rgb` getter
(in the missing Color.class.js) returns the three stored components. -/
def ColorAlpha.negative (c : ColorAlpha) : ColorAlpha :=
  mkColorAlpha c.red c.green c.blue (c.alphaProp.map fun a => 1 - a)

/-! Helper lemmas. -/

theorem qtrunc_eq_zero {q : ℚ} (h1 : -1 < q) (h2 : q < 1) : qtrunc q = 0 := by
  unfold qtrunc
  split_ifs with h
  · exact Int.floor_eq_zero_iff.mpr ⟨h, h2⟩
  · exact Int.ceil_eq_zero_iff.mpr ⟨h1, le_of_not_le h⟩

theorem jsRem_eq_self {a b : ℚ} (hb : 0 < b) (h1 : -b < a) (h2 : a < b) :
    jsRem a b = a := by
  have hq : qtrunc (a / b) = 0 := by
    apply qtrunc_eq_zero
    · rw [neg_lt, ← neg_div]
      exact (div_lt_one hb).mpr (by linarith)
    · exact (div_lt_one hb).mpr h2
  unfold jsRem
  rw [hq]
  push_cast
  ring

theorem jround_natCast (n : ℕ) : jround (n : ℚ) = (n : ℤ) := by
  unfold jround
  rw [Int.floor_eq_iff]
  constructor
  · push_cast
    linarith
  · push_cast
    linarith

theorem mkColor_natCast (r g b : ℕ) :
    mkColor (r : ℚ) (g : ℚ) (b : ℚ) =
      ⟨(r : ℚ), ((if g = 0 then r else g : ℕ) : ℚ),
        ((if b = 0 then r else b : ℕ) : ℚ)⟩ := by
  unfold mkColor
  rcases eq_or_ne r 0 with hr | hr <;> rcases eq_or_ne g 0 with hg | hg <;>
    rcases eq_or_ne b 0 with hb | hb <;>
    simp [hr, hg, hb, Nat.cast_eq_zero]

theorem mixWeight_eq (u : ℚ) :
    (if u ≠ 0 then (if u = 0 then (1:ℚ)/2 else u) else u) = u := by
  split_ifs <;> rfl

theorem mix_symm_general (a b : Color) (w : ℚ) : mix a b w = mix b a (1 - w) := by
  simp only [mix, mixWeight_eq]
  have h : ∀ x y : ℚ, y * (1 - (1 - w)) + x * (1 - w) = x * (1 - w) + y * w := by
    intro x y
    ring
  rw [h, h, h]

theorem mkColor_idem (r g b : ℚ) :
    mkColor (mkColor r g b).red (mkColor r g b).green (mkColor r g b).blue
      = mkColor r g b := by
  unfold mkColor
  rcases eq_or_ne r 0 with hr | hr <;> rcases eq_or_ne g 0 with hg | hg <;>
    rcases eq_or_ne b 0 with hb | hb <;> simp [hr, hg, hb]

theorem mkColor_channels_nat (r g b : ℕ) :
    (∃ n : ℕ, (mkColor (r:ℚ) g b).red = n) ∧
    (∃ n : ℕ, (mkColor (r:ℚ) g b).green = n) ∧
    (∃ n : ℕ, (mkColor (r:ℚ) g b).blue = n) := by
  rw [mkColor_natCast]
  exact ⟨⟨r, rfl⟩, ⟨_, rfl⟩, ⟨_, rfl⟩⟩

theorem foldl_ite_skip {α : Type} (p : ℕ → Prop) [DecidablePred p] (f : ℕ → α)
    (l : List ℕ) (a : α) (h : ∀ i ∈ l, ¬ p i) :
    l.foldl (fun acc i => if p i then f i else acc) a = a := by
  induction l generalizing a with
  | nil => rfl
  | cons x xs ih =>
    simp only [List.foldl_cons]
    rw [if_neg (h x (List.mem_cons_self x xs))]
    exact ih a fun i hi => h i (List.mem_cons_of_mem x hi)

theorem toDec_nonhex_first (c : Char) (h : c ∉ hexDigitChars) (l : List Char) :
    toDec (c :: l) = toDec ('0' :: l) := by
  simp only [toDec, List.take_succ_cons, List.take_zero, List.drop_succ_cons,
    List.drop_zero]
  have hc : ∀ i ∈ List.range 16, ¬ ((hexDigitChars.drop i).take 1 = [c]) := by
    intro i hi heq
    apply h
    have hmem : c ∈ (hexDigitChars.drop i).take 1 := by
      rw [heq]
      exact List.mem_singleton_self c
    exact List.mem_of_mem_drop (List.mem_of_mem_take hmem)
  have h1 : (List.range 16).foldl
      (fun acc i => if (hexDigitChars.drop i).take 1 = [c] then i * 16 else acc) 0
      = 0 := foldl_ite_skip _ _ _ _ hc
  have h2 : (List.range 16).foldl
      (fun acc i => if (hexDigitChars.drop i).take 1 = ['0'] then i * 16 else acc) 0
      = 0 := by decide
  rw [h1, h2]

/-! Claim theorems. -/

/-- C1 (code_bug). The constructor does not return the given components:
`Color(255, 0, 0)` yields white `(255, 255, 255)`, because JavaScript `||`
treats the explicit `0` arguments as missing and substitutes `_RED`. In
particular its green and blue accessors return `255`, not `0`. -/
theorem constructor_drops_zero_failing :
    mkColor 255 0 0 = mkColor 255 255 255 ∧
    (mkColor 255 0 0).green = 255 ∧ (mkColor 255 0 0).blue = 255 := by
  refine ⟨by decide, by decide, by decide⟩

/-- C2 (code_bug). `isGrayscale()` is NOT true for black even though its red,
green and blue components are all equal: `_HSV_SAT` is the unguarded division
`_chroma / _HSV_VAL`, which for black is `0/0 = NaN` (modelled `none`), and
`NaN === 0` is false. -/
theorem isGrayscale_black_failing :
    (mkColor 0 0 0).red = (mkColor 0 0 0).green ∧
    (mkColor 0 0 0).green = (mkColor 0 0 0).blue ∧
    hsvSat (mkColor 0 0 0) = none ∧
    isGrayscale (mkColor 0 0 0) = false := by
  have hs : hsvSat (mkColor 0 0 0) = none := by
    norm_num [hsvSat, hsvVal, cmax, mkColor]
  refine ⟨by decide, by decide, hs, ?_⟩
  rw [isGrayscale, hs]
  decide

/-- C3 (code_bug). The derived `hsvHue` is NOT always in `[0, 360)`: for
`Color(255, 10, 20)` the red channel is the maximum and blue exceeds green,
so `(g-b)/chroma` is negative, and the JavaScript `%` operator keeps that
sign — the hue is `-120/49 ≈ -2.45`, which is negative. -/
theorem hsvHue_negative_failing :
    hsvHue (mkColor 255 10 20) = -120/49 ∧ hsvHue (mkColor 255 10 20) < 0 := by
  have hh : hsvHue (mkColor 255 10 20) = -120/49 := by
    norm_num [hsvHue, chroma, cmax, cmin, mkColor, max_def, min_def, jsRem_eq_self]
  exact ⟨hh, by rw [hh]; norm_num⟩

/-- C4 (code_bug). The HSV and HSL round trips do not stay within ±1 — they
crash: `Color(255, 10, 20)` has derived hue `-120/49 < 0`, and `fromHSV`
(resp. `fromHSL`) applied to the color's own derived triple matches no
sextant, leaves `rgb` undefined, and throws a `TypeError` (modelled `none`). -/
theorem roundtrip_crash_failing :
    hsvSat (mkColor 255 10 20) = some (49/51) ∧
    fromHSV (hsvHue (mkColor 255 10 20)) (49/51) (hsvVal (mkColor 255 10 20))
      = none ∧
    fromHSL (hslHue (mkColor 255 10 20)) (hslSat (mkColor 255 10 20))
      (hslLum (mkColor 255 10 20)) = none := by
  have hh : hsvHue (mkColor 255 10 20) = -120/49 := by
    norm_num [hsvHue, chroma, cmax, cmin, mkColor, max_def, min_def, jsRem_eq_self]
  have hv : hsvVal (mkColor 255 10 20) = 1 := by
    norm_num [hsvVal, cmax, mkColor, max_def]
  have hs : hsvSat (mkColor 255 10 20) = some (49/51) := by
    norm_num [hsvSat, hsvVal, chroma, cmax, cmin, mkColor, max_def, min_def]
  have hlh : hslHue (mkColor 255 10 20) = -120/49 := by
    rw [hslHue, hh]
  have hls : hslSat (mkColor 255 10 20) = 1 := by
    norm_num [hslSat, hslLum, chroma, cmax, cmin, mkColor, max_def, min_def]
  have hll : hslLum (mkColor 255 10 20) = 53/102 := by
    norm_num [hslLum, cmax, cmin, mkColor, max_def, min_def]
  refine ⟨hs, ?_, ?_⟩
  · rw [hh, hv]
    norm_num [fromHSV, sextant]
  · rw [hlh, hls, hll]
    norm_num [fromHSL, sextant]

/-- C5 (code_bug). `rotate` does not normalize the shifted hue into
`[0, 360)`: the JavaScript `%` keeps a negative result, so rotating
`Color(255, 100, 100)` (hue 0) by `-90` passes hue `-90` to `fromHSV`,
which matches no sextant and throws a `TypeError` (modelled `none`)
instead of returning a rotated color. -/
theorem rotate_negative_crash_failing :
    rotate (mkColor 255 100 100) (-90) = none := by
  have hh : hsvHue (mkColor 255 100 100) = 0 := by
    norm_num [hsvHue, chroma, cmax, cmin, mkColor, max_def, min_def, jsRem_eq_self]
  have hs : hsvSat (mkColor 255 100 100) = some (31/51) := by
    norm_num [hsvSat, hsvVal, chroma, cmax, cmin, mkColor, max_def, min_def]
  have hv : hsvVal (mkColor 255 100 100) = 1 := by
    norm_num [hsvVal, cmax, mkColor, max_def]
  have hrem : jsRem ((0:ℚ) + -90) 360 = -90 := by
    rw [show ((0:ℚ) + -90) = -90 by ring, jsRem_eq_self] <;> norm_num
  rw [rotate, hh, hs, hv, hrem, rotateAux]
  norm_num [fromHSV, sextant]

/-- C6 (code_bug). The generic coercion factory `typeCheck` throws on every
string beginning `"hsv("` or `"hsl("`: it passes the whole string to
`Color.fromHSV` / `Color.fromHSL` as the hue, the string coerces to `NaN` in
every sextant comparison, `rgb` stays undefined, and `rgb.map` throws a
`TypeError` (modelled `none`) instead of parsing the denoted color. -/
theorem typeCheck_hsv_string_failing :
    typeCheck (.str "hsv(0, 1, 1)") = none ∧
    typeCheck (.str "hsl(0, 1, 0.5)") = none := by
  refine ⟨by decide, by decide⟩

/-- C7 (code_bug). The `ColorAlpha` constructor accepts an alpha argument but
never stores it (its body is only `super(red, green, blue)`), so `this.alpha`
is `undefined` (modelled `none`) rather than the given `0.7`, and `negative()`
yields a color whose alpha is again `undefined`, not `1 - 0.7 = 0.3`. -/
theorem colorAlpha_alpha_dropped_failing :
    (mkColorAlpha 0 0 0 (some (7/10))).alphaProp = none ∧
    ((mkColorAlpha 0 0 0 (some (7/10))).negative).alphaProp ≠ some (3/10) := by
  refine ⟨rfl, by decide⟩

/-- C8 (code_bug). `complement()` is not `(255-r, 255-g, 255-b)` and applying
it twice does not recover the original color: for `Color(10, 20, 255)` the
complement constructs `new Color(245, 235, 0)`, whose blue argument `0` is
falsy and replaced by the red component, giving `(245, 235, 245)`; the second
complement then yields `(10, 20, 10)`, not `(10, 20, 255)`. -/
theorem complement_not_involutive_failing :
    (mkColor 10 20 255).blue = 255 ∧
    complement (mkColor 10 20 255) = mkColor 245 235 245 ∧
    (complement (mkColor 10 20 255)).blue ≠ 0 ∧
    complement (complement (mkColor 10 20 255)) = mkColor 10 20 10 ∧
    complement (complement (mkColor 10 20 255)) ≠ mkColor 10 20 255 := by
  have h1 : complement (mkColor 10 20 255) = mkColor 245 235 245 := by
    norm_num [complement, mkColor]
  have h2 : complement (mkColor 245 235 245) = mkColor 10 20 10 := by
    norm_num [complement, mkColor]
  refine ⟨by decide, h1, ?_, ?_, ?_⟩
  · rw [h1]
    decide
  · rw [h1, h2]
  · rw [h1, h2]
    decide

/-- C9 (confirmed). For colors built by the constructor from integer
components, mixing with weight 0 returns the receiver exactly, weight 1
returns the other color exactly, and `a.mix(b, w)` equals `b.mix(a, 1-w)`
exactly in all three channels (here proved for every rational weight, which
includes all `w ∈ [0,1]`). -/
theorem mix_weight_laws (r1 g1 b1 r2 g2 b2 : ℕ) (w : ℚ) :
    mix (mkColor r1 g1 b1) (mkColor r2 g2 b2) 0 = mkColor r1 g1 b1 ∧
    mix (mkColor r1 g1 b1) (mkColor r2 g2 b2) 1 = mkColor r2 g2 b2 ∧
    mix (mkColor r1 g1 b1) (mkColor r2 g2 b2) w
      = mix (mkColor r2 g2 b2) (mkColor r1 g1 b1) (1 - w) := by
  refine ⟨?_, ?_, mix_symm_general _ _ w⟩
  · obtain ⟨⟨nr, hr⟩, ⟨ng, hg⟩, ⟨nb, hb⟩⟩ := mkColor_channels_nat r1 g1 b1
    have ha := mkColor_idem (r1:ℚ) g1 b1
    simp only [mix]
    norm_num
    rw [hr, hg, hb, jround_natCast, jround_natCast, jround_natCast,
      Int.cast_natCast, Int.cast_natCast, Int.cast_natCast, ← hr, ← hg, ← hb, ha]
  · obtain ⟨⟨nr, hr⟩, ⟨ng, hg⟩, ⟨nb, hb⟩⟩ := mkColor_channels_nat r2 g2 b2
    have ha := mkColor_idem (r2:ℚ) g2 b2
    simp only [mix]
    norm_num
    rw [hr, hg, hb, jround_natCast, jround_natCast, jround_natCast,
      Int.cast_natCast, Int.cast_natCast, Int.cast_natCast, ← hr, ← hg, ← hb, ha]

/-- C10 (counterexample). The claim that `fromHex` of a too-short string
returns black fails at `"#ab"`: the slice `"ab"` converts to 171, the two
missing slices contribute 0, and the constructor call `Color(171, 0, 0)`
yields `(171, 171, 171)` — not black. -/
theorem fromHex_short_not_black_cex :
    fromHex "#ab" = mkColor 171 0 0 ∧ fromHex "#ab" ≠ mkColor 0 0 0 := by
  refine ⟨by decide, by decide⟩

/-- C10 (corrected). `fromHex` is total — every slice and the digit scan are
defined on every string, so it never throws — and a character that is not one
of the sixteen lowercase hex digits contributes digit value 0 (it behaves
exactly like `'0'` in its position). Hence `fromHex "#FF0000"` (uppercase
digits) is black and `fromHex "#"` (all channel slices empty) is black, but a
too-short string is not black in general: `fromHex "#ab"` passes
`(171, 0, 0)` to the constructor. -/
theorem fromHex_total_amended (c : Char) (h : c ∉ hexDigitChars)
    (l : List Char) :
    toDec (c :: l) = toDec ('0' :: l) ∧
    fromHex "#FF0000" = mkColor 0 0 0 ∧
    fromHex "#" = mkColor 0 0 0 ∧
    fromHex "#ab" = mkColor 171 0 0 := by
  refine ⟨toDec_nonhex_first c h l, by decide, by decide, by decide⟩

/-- Witness for C10: the amended theorem applied at the concrete non-hex
character `'F'`. -/
theorem fromHex_total_amended_witness :
    toDec ['F', 'F'] = toDec ['0', 'F'] ∧
    fromHex "#FF0000" = mkColor 0 0 0 ∧
    fromHex "#" = mkColor 0 0 0 ∧
    fromHex "#ab" = mkColor 171 0 0 :=
  fromHex_total_amended 'F' (by decide) ['F']

end CssColor
